import Mathlib

/-!
Shallow embedding of the EufyLife BLE body-composition integration.

Real arithmetic is modelled over `ℚ` (the Python source computes with
floats; all constants here are exact decimal literals).  The Python
built-in `round(x, 1)` is modelled as `round1` and `round(x)` as
Mathlib's `round` (round-half-up over `ℚ`; the concrete inputs used in
the theorems below never land on exact ties, where Python's
round-half-to-even could differ).
-/

/-- Rounding to one decimal place, modelling Python `round(x, 1)`. -/
def round1 (x : ℚ) : ℚ := (round (x * 10) : ℤ) / 10

/-- Clamping, modelling the Python idiom `max(lo, min(hi, x))`. -/
def clampQ (lo hi x : ℚ) : ℚ := max lo (min hi x)

/-- Sex enumeration from `body_metrics.UserProfile.sex`. -/
inductive Sex where
  | male
  | female
deriving DecidableEq, Repr

/-- Embeds `body_metrics.UserProfile` (age in years, height in cm). -/
structure UserProfile where
  age : ℤ
  height : ℚ
  sex : Sex
deriving DecidableEq, Repr

/-- Embeds `body_metrics.BodyCompositionResult`. -/
structure BodyCompositionResult where
  bmi : ℚ
  body_fat : ℚ
  muscle_mass : ℚ
  bone_mass : ℚ
  water_percentage : ℚ
  visceral_fat : ℚ
  bmr : ℚ
  metabolic_age : ℤ
  protein_percentage : ℚ
  ideal_weight : ℚ
  body_type : String
  lean_body_mass : ℚ
deriving DecidableEq, Repr

/-- Embeds the `BODY_TYPES` list from `body_metrics.py`. -/
def BODY_TYPES : List String :=
  ["Obese", "Overweight", "Thick-set", "Lack-exercise", "Balanced",
   "Balanced-muscular", "Skinny", "Balanced-skinny", "Skinny-muscular"]

/-- Embeds `BodyMetricsCalculator.get_bmi`. -/
def getBmi (w : ℚ) (p : UserProfile) : ℚ := w / ((p.height / 100) ^ 2)

/-- Embeds `BodyMetricsCalculator.get_ideal_weight`. -/
def getIdealWeight (p : UserProfile) : ℚ := 22 * ((p.height / 100) ^ 2)

/-- Embeds `BodyMetricsCalculator.get_lean_body_mass` (before the final
rounding done in `calculate_all`). -/
def getLeanBodyMass (w z : ℚ) (p : UserProfile) : ℚ :=
  let h_sq := (p.height / 100) ^ 2
  let lbm :=
    match p.sex with
    | Sex.male => 45.0 * h_sq / z + 0.40 * w - 0.05 * (p.age : ℚ) + 27.0
    | Sex.female => 55.0 * h_sq / z + 0.35 * w - 0.05 * (p.age : ℚ) + 20.0
  max lbm (w * 0.25)

/-- Embeds `BodyMetricsCalculator.get_fat_percentage`. -/
def getFatPercentage (w z : ℚ) (p : UserProfile) : ℚ :=
  round1 (clampQ 3.0 60.0 (((w - getLeanBodyMass w z p) / w) * 100))

/-- Embeds `BodyMetricsCalculator.get_bone_mass`. -/
def getBoneMass (w z : ℚ) (p : UserProfile) : ℚ :=
  let lbm := getLeanBodyMass w z p
  let bone :=
    match p.sex with
    | Sex.male => lbm * 0.049
    | Sex.female => lbm * 0.048
  round1 (clampQ 0.5 8.0 bone)

/-- Embeds `BodyMetricsCalculator.get_muscle_mass`. -/
def getMuscleMass (w z : ℚ) (p : UserProfile) : ℚ :=
  round1 (max 10.0 (getLeanBodyMass w z p - getBoneMass w z p))

/-- Embeds `BodyMetricsCalculator.get_water_percentage`. -/
def getWaterPercentage (w z : ℚ) (p : UserProfile) : ℚ :=
  round1 (clampQ 35.0 75.0 ((100 - getFatPercentage w z p) * 0.7126))

/-- Embeds `BodyMetricsCalculator.get_visceral_fat`. -/
def getVisceralFat (w _z : ℚ) (p : UserProfile) : ℚ :=
  let vfal :=
    match p.sex with
    | Sex.male => 0.3 * w - 0.09 * p.height + 0.10 * (p.age : ℚ) + 1.0
    | Sex.female => 0.3 * w - 0.09 * p.height + 0.08 * (p.age : ℚ) - 1.0
  round1 (clampQ 1.0 50.0 vfal)

/-- Embeds `BodyMetricsCalculator.get_bmr` (Python `round` with no digit
argument returns an integer, cast back to `ℚ` for the result field). -/
def getBmr (w z : ℚ) (p : UserProfile) : ℚ :=
  let lbm := getLeanBodyMass w z p
  let bmr :=
    match p.sex with
    | Sex.male => 360 + 21.6 * lbm - 1.5 * (p.age : ℚ)
    | Sex.female => 340 + 21.6 * lbm - 1.5 * (p.age : ℚ)
  ((round (clampQ 500 3000 bmr) : ℤ) : ℚ)

/-- Embeds `BodyMetricsCalculator.get_metabolic_age`. -/
def getMetabolicAge (w z : ℚ) (p : UserProfile) : ℤ :=
  let fat_pct := getFatPercentage w z p
  let ideal_fat : ℚ :=
    match p.sex with
    | Sex.male => 20.0
    | Sex.female => 25.0
  round (clampQ 15 90 ((p.age : ℚ) + (fat_pct - ideal_fat) * 0.88))

/-- Embeds `BodyMetricsCalculator.get_protein_percentage`. -/
def getProteinPercentage (w z : ℚ) (p : UserProfile) : ℚ :=
  round1 (clampQ 5.0 25.0 ((getMuscleMass w z p / w) * 100 * 0.189))

/-- Fat-level axis of `BodyMetricsCalculator.get_body_type`. -/
def fatLevel (sex : Sex) (fat : ℚ) : ℕ :=
  match sex with
  | Sex.male => if fat < 15.0 then 0 else if fat < 25.0 then 1 else 2
  | Sex.female => if fat < 22.0 then 0 else if fat < 32.0 then 1 else 2

/-- Muscle-level axis of `BodyMetricsCalculator.get_body_type`. -/
def muscleLevel (sex : Sex) (weight muscle : ℚ) : ℕ :=
  match sex with
  | Sex.male =>
      if muscle < weight * 0.40 then 0
      else if muscle < weight * 0.48 then 1 else 2
  | Sex.female =>
      if muscle < weight * 0.33 then 0
      else if muscle < weight * 0.40 then 1 else 2

/-- Embeds `BodyMetricsCalculator.get_body_type`. -/
def getBodyType (w z : ℚ) (p : UserProfile) : String :=
  let fat := getFatPercentage w z p
  let muscle := getMuscleMass w z p
  BODY_TYPES.getD (fatLevel p.sex fat * 3 + muscleLevel p.sex w muscle) ""

/-- Embeds `BodyMetricsCalculator.calculate_all`. -/
def calculateAll (w z : ℚ) (p : UserProfile) : BodyCompositionResult :=
  { bmi := round1 (getBmi w p)
    body_fat := getFatPercentage w z p
    muscle_mass := getMuscleMass w z p
    bone_mass := getBoneMass w z p
    water_percentage := getWaterPercentage w z p
    visceral_fat := getVisceralFat w z p
    bmr := getBmr w z p
    metabolic_age := getMetabolicAge w z p
    protein_percentage := getProteinPercentage w z p
    ideal_weight := round1 (getIdealWeight p)
    body_type := getBodyType w z p
    lean_body_mass := round1 (getLeanBodyMass w z p) }

/-- Embeds `const.KG_TO_LBS`. -/
def KG_TO_LBS : ℚ := 2.20462

/-- Weight unit enumeration (`const.WEIGHT_UNIT_KG` / `const.WEIGHT_UNIT_LBS`). -/
inductive WeightUnit where
  | kg
  | lbs
deriving DecidableEq, Repr

/-- Embeds `sensor.ProfileConfig`. -/
structure ProfileConfig where
  profile_id : String
  name : String
  profile : UserProfile
  weight_min : ℚ
  weight_max : ℚ
  weight_unit : WeightUnit := WeightUnit.kg
deriving DecidableEq, Repr

/-- Embeds `eufylife_ble_client.models.EufyLifeBLEState` as read by this
integration (weight, optional final weight, optional heart rate). -/
structure EufyLifeBLEState where
  weight_kg : ℚ
  final_weight_kg : Option ℚ
  heart_rate : Option ℕ
deriving DecidableEq, Repr

/-- State of `extended_client.EufyLifeBLEDeviceExtended` relevant to the
measurement pipeline: the impedance caches added by the subclass plus the
inherited BLE state. -/
structure ClientState where
  impedance : Option ℚ
  impedance_final : Option ℚ
  heart_rate_extended : Option ℕ
  state : Option EufyLifeBLEState
deriving DecidableEq, Repr

/-- Initial client state, from `EufyLifeBLEDeviceExtended.__init__`. -/
def initClientState : ClientState :=
  { impedance := none, impedance_final := none
    heart_rate_extended := none, state := none }

/-- Raw 16-bit impedance of a T9150 body-comp packet (`data[17] | data[18] << 8`). -/
def t9150Raw (data : List ℕ) : ℕ := data.getD 17 0 ||| (data.getD 18 0 <<< 8)

/-- Final flag of a T9150 body-comp packet (`status & 0x80`). -/
def t9150Final (data : List ℕ) : Bool := data.getD 10 0 &&& 0x80 != 0

/-- Heart-rate update inside `_handle_t9150_body_comp_packet` (byte 15). -/
def stepHRT9150 (data : List ℕ) (s : ClientState) : ClientState :=
  if 0 < data.getD 15 0 then { s with heart_rate_extended := some (data.getD 15 0) }
  else s

/-- Impedance update inside `_handle_t9150_body_comp_packet` (bytes 17-18,
guarded by `len(data) >= 19` and `raw_impedance > 0`; final impedance is
stored only when the status final bit is set). -/
def stepImpT9150 (data : List ℕ) (s : ClientState) : ClientState :=
  if 19 ≤ data.length then
    if 0 < t9150Raw data then
      if t9150Final data then
        { s with impedance := some ((t9150Raw data : ℚ) / 10)
                 impedance_final := some ((t9150Raw data : ℚ) / 10) }
      else { s with impedance := some ((t9150Raw data : ℚ) / 10) }
    else s
  else s

/-- Weight/state update at the end of `_handle_t9150_body_comp_packet`. -/
def stepWeightT9150 (data : List ℕ) (s : ClientState) : ClientState :=
  let w : ℚ := ((((data.getD 13 0) <<< 8) ||| data.getD 12 0 : ℕ) : ℚ) / 100
  let fin : Option ℚ := if t9150Final data then some w else none
  { s with state := some ⟨w, fin, s.heart_rate_extended⟩ }

/-- Embeds `_handle_t9150_body_comp_packet`: heart rate, then impedance,
then the weight state update. -/
def stepT9150BodyComp (data : List ℕ) (s : ClientState) : ClientState :=
  stepWeightT9150 data (stepImpT9150 data (stepHRT9150 data s))

/-- Raw 24-bit impedance of a T9148/T9149 notification
(`data[10] << 16 | data[9] << 8 | data[8]`). -/
def t9148Raw (data : List ℕ) : ℕ :=
  ((data.getD 10 0) <<< 16) ||| ((data.getD 9 0) <<< 8) ||| data.getD 8 0

/-- Final flag of a T9148/T9149 notification (`data[12] == 0x00`). -/
def t9148IsFinal (data : List ℕ) : Bool := data.getD 12 0 == 0

/-- Impedance update inside `_handle_weight_update_t9148_t9149` (bytes
8-10, guarded by `raw_impedance > 0`; final impedance is stored only for a
final reading). -/
def stepImpT9148 (data : List ℕ) (s : ClientState) : ClientState :=
  if 0 < t9148Raw data then
    if t9148IsFinal data then
      { s with impedance := some (t9148Raw data : ℚ)
               impedance_final := some (t9148Raw data : ℚ) }
    else { s with impedance := some (t9148Raw data : ℚ) }
  else s

/-- Weight/state update at the end of `_handle_weight_update_t9148_t9149`. -/
def stepStateT9148 (data : List ℕ) (s : ClientState) : ClientState :=
  let w : ℚ := ((((data.getD 7 0) <<< 8) ||| data.getD 6 0 : ℕ) : ℚ) / 100
  { s with state := some ⟨w, if t9148IsFinal data then some w else none, none⟩ }

/-- Embeds `_handle_weight_update_t9148_t9149`: the handler returns early
unless the notification has length 16, starts with `0xCF` and has a zero
byte 2; otherwise it updates the impedance caches and then the BLE state. -/
def stepT9148 (data : List ℕ) (s : ClientState) : ClientState :=
  if data.length = 16 ∧ data.getD 0 0 = 0xCF ∧ data.getD 2 0 = 0 then
    stepStateT9148 data (stepImpT9148 data s)
  else s

/-- Reachable client states: the initial state, closed under the two
impedance-extracting handlers and under the inherited weight-only state
updates (which never touch the impedance caches). -/
inductive Reachable : ClientState → Prop where
  | init : Reachable initClientState
  | t9150 (s : ClientState) (data : List ℕ) (hlen : 19 ≤ data.length) :
      Reachable s → Reachable (stepT9150BodyComp data s)
  | t9148 (s : ClientState) (data : List ℕ) :
      Reachable s → Reachable (stepT9148 data s)
  | stateOnly (s : ClientState) (st : Option EufyLifeBLEState) :
      Reachable s → Reachable { s with state := st }

/-- State of a body-composition sensor entity
(`EufyLifeBodyCompositionSensorEntity`): the cached native value and the
last computed result. -/
structure EntityState (V : Type) where
  native_value : Option V
  last_result : Option BodyCompositionResult

/-- Range-containment test of `_handle_extended_update`: the scale reading
is converted to the profile's configured unit and compared with the stored
range. -/
def matchesRange (pc : ProfileConfig) (weight_kg : ℚ) : Bool :=
  let measured :=
    match pc.weight_unit with
    | WeightUnit.lbs => weight_kg * KG_TO_LBS
    | WeightUnit.kg => weight_kg
  decide (pc.weight_min ≤ measured ∧ measured ≤ pc.weight_max)

/-- Embeds `EufyLifeBodyCompositionSensorEntity._handle_extended_update`.
Returns the updated entity state together with the calculator invocation
`(weight, impedance, profile)` when one was made (`none` when the method
returned early without touching the entity). -/
def handleExtendedUpdate {V : Type} (extract : BodyCompositionResult → Option V)
    (client : ClientState) (pc : ProfileConfig) (est : EntityState V) :
    EntityState V × Option (ℚ × ℚ × UserProfile) :=
  match client.impedance_final, client.state with
  | some z, some st =>
    match st.final_weight_kg with
    | some w =>
      if matchesRange pc w then
        let result := calculateAll w z pc.profile
        let est1 := { est with last_result := some result }
        match extract result with
        | some v => ({ est1 with native_value := some v }, some (w, z, pc.profile))
        | none => (est1, some (w, z, pc.profile))
      else (est, none)
    | none => (est, none)
  | _, _ => (est, none)

/-- Weight-range conversion used by the edit-profile flow in
`config_flow.async_step_edit_profile`: `round(old * factor, 1)`. -/
def convertWeight (factor x : ℚ) : ℚ := round1 (x * factor)

theorem roundQ_mono {x y : ℚ} (h : x ≤ y) : round x ≤ round y := by
  rw [round_eq, round_eq]
  exact Int.floor_mono (by linarith)

theorem round1_mono {x y : ℚ} (h : x ≤ y) : round1 x ≤ round1 y := by
  unfold round1
  have : round (x * 10) ≤ round (y * 10) := roundQ_mono (by linarith)
  exact div_le_div_of_nonneg_right (by exact_mod_cast this) (by norm_num)

theorem round1_fix {x : ℚ} {n : ℤ} (hx : x * 10 = (n : ℚ)) : round1 x = x := by
  unfold round1
  rw [hx, round_intCast]
  field_simp
  linarith [hx]

theorem abs_round1_sub (x : ℚ) : |round1 x - x| ≤ 1 / 20 := by
  unfold round1
  have h := abs_sub_round (x * 10)
  rw [abs_sub_comm] at h
  have e : (round (x * 10) : ℚ) / 10 - x = ((round (x * 10) : ℚ) - x * 10) / 10 := by
    ring
  rw [e, abs_div, abs_of_pos (show (0:ℚ) < 10 by norm_num),
    div_le_iff₀ (show (0:ℚ) < 10 by norm_num)]
  linarith

theorem sub_le_round1 (x : ℚ) : x - 1 / 20 ≤ round1 x := by
  have := abs_round1_sub x
  have := abs_le.mp this
  linarith [this.1]

theorem round1_le_add (x : ℚ) : round1 x ≤ x + 1 / 20 := by
  have := abs_le.mp (abs_round1_sub x)
  linarith [this.2]

theorem le_clampQ (lo hi x : ℚ) : lo ≤ clampQ lo hi x := le_max_left _ _

theorem clampQ_le {lo hi : ℚ} (x : ℚ) (h : lo ≤ hi) : clampQ lo hi x ≤ hi :=
  max_le h (min_le_left _ _)

theorem round1_clampQ_bounds {lo hi : ℚ} (x : ℚ) (nlo nhi : ℤ)
    (hlo : lo * 10 = (nlo : ℚ)) (hhi : hi * 10 = (nhi : ℚ)) (h : lo ≤ hi) :
    lo ≤ round1 (clampQ lo hi x) ∧ round1 (clampQ lo hi x) ≤ hi := by
  constructor
  · have := round1_mono (le_clampQ lo hi x)
    rwa [round1_fix hlo] at this
  · have := round1_mono (@clampQ_le lo hi x h)
    rwa [round1_fix hhi] at this

theorem le_round1_max {lo : ℚ} (x : ℚ) (nlo : ℤ) (hlo : lo * 10 = (nlo : ℚ)) :
    lo ≤ round1 (max lo x) := by
  have := round1_mono (le_max_left lo x)
  rwa [round1_fix hlo] at this

theorem roundQ_clampQ_bounds (x : ℚ) (nlo nhi : ℤ) (h : (nlo : ℚ) ≤ (nhi : ℚ)) :
    nlo ≤ round (clampQ (nlo : ℚ) (nhi : ℚ) x) ∧
      round (clampQ (nlo : ℚ) (nhi : ℚ) x) ≤ nhi := by
  constructor
  · have := roundQ_mono (le_clampQ (nlo : ℚ) (nhi : ℚ) x)
    rwa [round_intCast] at this
  · have := roundQ_mono (@clampQ_le (nlo : ℚ) (nhi : ℚ) x h)
    rwa [round_intCast] at this

/-- C1: the claim as frozen is false: with the validity condition it states
(positive weight, impedance and height, integer age), the input
`weight = 0.48 kg, impedance = 1 Ω, height = 1 cm, age = 600, male` drives
the raw LBM below the floor `weight * 0.25 = 0.12`, and rounding the floored
value to one decimal yields `0.1 < 0.12`: the reported `lean_body_mass`
field drops below `weight_kg * 0.25`. -/
theorem c1_floor_counterexample :
    (0:ℚ) < 48 / 100 ∧ (0:ℚ) < 1 ∧
      (0:ℚ) < ({ age := 600, height := 1, sex := Sex.male } : UserProfile).height ∧
      (calculateAll (48 / 100) 1
          { age := 600, height := 1, sex := Sex.male }).lean_body_mass
        < (48 / 100) * 0.25 := by
  refine ⟨by norm_num, by norm_num, by norm_num [UserProfile.height], ?_⟩
  norm_num [calculateAll, getLeanBodyMass, round1, round_eq, clampQ, max_def, min_def]

/-- C1 (amended): restricted to the data-model age range `1 ≤ age ≤ 99`
(spec §3), the reported one-decimal-rounded `lean_body_mass` field of
`calculate_all` is at least `weight_kg * 0.25` for every valid input. -/
theorem c1_floor_amended (w z : ℚ) (p : UserProfile) (hw : 0 < w) (hz : 0 < z)
    (hh : 0 < p.height) (ha1 : 1 ≤ p.age) (ha2 : p.age ≤ 99) :
    w * 0.25 ≤ (calculateAll w z p).lean_body_mass := by
  have hage : (p.age : ℚ) ≤ 99 := by exact_mod_cast ha2
  have hkey : w * 0.25 + 1 / 20 ≤ getLeanBodyMass w z p := by
    obtain ⟨a, h, sx⟩ := p
    simp only [UserProfile.height] at hh
    simp only at hage
    cases sx <;>
      · simp only [getLeanBodyMass]
        refine le_trans ?_ (le_max_left _ _)
        have hsq : (0:ℚ) ≤ 45.0 * ((h / 100) ^ 2) / z :=
          div_nonneg (by positivity) hz.le
        have hsq2 : (0:ℚ) ≤ 55.0 * ((h / 100) ^ 2) / z :=
          div_nonneg (by positivity) hz.le
        norm_num
        nlinarith [hsq, hsq2, hw, hage]
  have hfield : (calculateAll w z p).lean_body_mass
      = round1 (getLeanBodyMass w z p) := rfl
  rw [hfield]
  have := sub_le_round1 (getLeanBodyMass w z p)
  linarith

/-- C1 amended witness: a concrete valid input. -/
theorem c1_floor_amended_witness :
    (0:ℚ) < 75 ∧ (0:ℚ) < 500 ∧
      (0:ℚ) < ({ age := 30, height := 175, sex := Sex.male } : UserProfile).height ∧
      (1:ℤ) ≤ 30 ∧ (30:ℤ) ≤ 99 ∧
      (75:ℚ) * 0.25 ≤ (calculateAll 75 500
          { age := 30, height := 175, sex := Sex.male }).lean_body_mass :=
  ⟨by norm_num, by norm_num, by norm_num [UserProfile.height], by norm_num, by norm_num,
    c1_floor_amended 75 500 { age := 30, height := 175, sex := Sex.male }
      (by norm_num) (by norm_num) (by norm_num [UserProfile.height])
      (by norm_num) (by norm_num)⟩


theorem getFatPercentage_bounds (w z : ℚ) (p : UserProfile) :
    3.0 ≤ getFatPercentage w z p ∧ getFatPercentage w z p ≤ 60.0 := by
  unfold getFatPercentage
  exact round1_clampQ_bounds _ 30 600 (by norm_num) (by norm_num) (by norm_num)

theorem getBoneMass_bounds (w z : ℚ) (p : UserProfile) :
    0.5 ≤ getBoneMass w z p ∧ getBoneMass w z p ≤ 8.0 := by
  obtain ⟨a, h, sx⟩ := p
  cases sx <;>
    · simp only [getBoneMass]
      exact round1_clampQ_bounds _ 5 80 (by norm_num) (by norm_num) (by norm_num)

theorem getWaterPercentage_bounds (w z : ℚ) (p : UserProfile) :
    35.0 ≤ getWaterPercentage w z p ∧ getWaterPercentage w z p ≤ 75.0 := by
  unfold getWaterPercentage
  exact round1_clampQ_bounds _ 350 750 (by norm_num) (by norm_num) (by norm_num)

theorem getVisceralFat_bounds (w z : ℚ) (p : UserProfile) :
    1.0 ≤ getVisceralFat w z p ∧ getVisceralFat w z p ≤ 50.0 := by
  obtain ⟨a, h, sx⟩ := p
  cases sx <;>
    · simp only [getVisceralFat]
      exact round1_clampQ_bounds _ 10 500 (by norm_num) (by norm_num) (by norm_num)

theorem getBmr_bounds (w z : ℚ) (p : UserProfile) :
    500 ≤ getBmr w z p ∧ getBmr w z p ≤ 3000 := by
  obtain ⟨a, h, sx⟩ := p
  cases sx <;>
    · simp only [getBmr]
      constructor
      · exact_mod_cast (roundQ_clampQ_bounds _ 500 3000 (by norm_num)).1
      · exact_mod_cast (roundQ_clampQ_bounds _ 500 3000 (by norm_num)).2

theorem getMetabolicAge_bounds (w z : ℚ) (p : UserProfile) :
    15 ≤ getMetabolicAge w z p ∧ getMetabolicAge w z p ≤ 90 := by
  obtain ⟨a, h, sx⟩ := p
  cases sx <;>
    · simp only [getMetabolicAge]
      constructor
      · exact_mod_cast (roundQ_clampQ_bounds _ 15 90 (by norm_num)).1
      · exact_mod_cast (roundQ_clampQ_bounds _ 15 90 (by norm_num)).2

theorem getProteinPercentage_bounds (w z : ℚ) (p : UserProfile) :
    5.0 ≤ getProteinPercentage w z p ∧ getProteinPercentage w z p ≤ 25.0 := by
  unfold getProteinPercentage
  exact round1_clampQ_bounds _ 50 250 (by norm_num) (by norm_num) (by norm_num)

theorem getMuscleMass_lb (w z : ℚ) (p : UserProfile) :
    10.0 ≤ getMuscleMass w z p := by
  unfold getMuscleMass
  exact le_round1_max _ 100 (by norm_num)

/-- C2: for every valid input, every clamped metric of the result lies
within its documented bound inclusive: body_fat in [3, 60], bone_mass in
[0.5, 8], water_percentage in [35, 75], visceral_fat in [1, 50], bmr in
[500, 3000], metabolic_age in [15, 90], protein_percentage in [5, 25], and
muscle_mass at least 10 (floor only, no upper clamp). -/
theorem c2_clamp_bounds (w z : ℚ) (p : UserProfile) (_hw : 0 < w) (_hz : 0 < z)
    (_hh : 0 < p.height) :
    (3.0 ≤ (calculateAll w z p).body_fat ∧ (calculateAll w z p).body_fat ≤ 60.0) ∧
    (0.5 ≤ (calculateAll w z p).bone_mass ∧ (calculateAll w z p).bone_mass ≤ 8.0) ∧
    (35.0 ≤ (calculateAll w z p).water_percentage ∧
      (calculateAll w z p).water_percentage ≤ 75.0) ∧
    (1.0 ≤ (calculateAll w z p).visceral_fat ∧
      (calculateAll w z p).visceral_fat ≤ 50.0) ∧
    (500 ≤ (calculateAll w z p).bmr ∧ (calculateAll w z p).bmr ≤ 3000) ∧
    (15 ≤ (calculateAll w z p).metabolic_age ∧
      (calculateAll w z p).metabolic_age ≤ 90) ∧
    (5.0 ≤ (calculateAll w z p).protein_percentage ∧
      (calculateAll w z p).protein_percentage ≤ 25.0) ∧
    10.0 ≤ (calculateAll w z p).muscle_mass :=
  ⟨getFatPercentage_bounds w z p, getBoneMass_bounds w z p,
    getWaterPercentage_bounds w z p, getVisceralFat_bounds w z p,
    getBmr_bounds w z p, getMetabolicAge_bounds w z p,
    getProteinPercentage_bounds w z p, getMuscleMass_lb w z p⟩

/-- C2 witness: a concrete valid input. -/
theorem c2_clamp_bounds_witness :
    (0:ℚ) < 75 ∧ (0:ℚ) < 500 ∧
      (0:ℚ) < ({ age := 30, height := 175, sex := Sex.male } : UserProfile).height ∧
      (3.0 ≤ (calculateAll 75 500
        { age := 30, height := 175, sex := Sex.male }).body_fat ∧
       (calculateAll 75 500
        { age := 30, height := 175, sex := Sex.male }).body_fat ≤ 60.0) :=
  ⟨by norm_num, by norm_num, by norm_num [UserProfile.height],
    (c2_clamp_bounds 75 500 { age := 30, height := 175, sex := Sex.male }
      (by norm_num) (by norm_num) (by norm_num [UserProfile.height])).1⟩

/-- Test profile with range [60, 90] configured in pounds. -/
def lbsProfile6090 : ProfileConfig :=
  { profile_id := "p1", name := "P1"
    profile := { age := 30, height := 170, sex := Sex.male }
    weight_min := 60, weight_max := 90, weight_unit := WeightUnit.lbs }

/-- C3: the claim as frozen is false: it states that an lbs profile matches
exactly when `weight_min * 2.20462 <= weight_kg <= weight_max * 2.20462`,
but the code multiplies the measurement (not the stored range) by
`KG_TO_LBS`.  For the range [60, 90] lbs and a 30 kg measurement the code
matches while the claim's test fails. -/
theorem c3_matcher_counterexample :
    matchesRange lbsProfile6090 30 = true ∧
      ¬ (lbsProfile6090.weight_min * KG_TO_LBS ≤ 30 ∧
          (30:ℚ) ≤ lbsProfile6090.weight_max * KG_TO_LBS) := by
  constructor
  · simp only [matchesRange, lbsProfile6090, KG_TO_LBS]
    norm_num
  · simp only [lbsProfile6090, KG_TO_LBS]
    norm_num

/-- C3 (amended): for a profile whose configured unit is pounds, the
matcher converts the measurement to pounds by multiplying by the fixed
factor 2.20462 and compares it with the stored range: a measurement
matches exactly when `weight_min <= weight_kg * 2.20462 <= weight_max`
(equivalently, when `weight_min / 2.20462 <= weight_kg <= weight_max /
2.20462`); for kg profiles the stored range is compared to `weight_kg`
directly. -/
theorem c3_matcher_amended (pc : ProfileConfig) (wkg : ℚ) :
    (pc.weight_unit = WeightUnit.lbs →
      (matchesRange pc wkg = true ↔
        (pc.weight_min ≤ wkg * KG_TO_LBS ∧ wkg * KG_TO_LBS ≤ pc.weight_max))) ∧
    (pc.weight_unit = WeightUnit.lbs →
      (matchesRange pc wkg = true ↔
        (pc.weight_min / KG_TO_LBS ≤ wkg ∧ wkg ≤ pc.weight_max / KG_TO_LBS))) ∧
    (pc.weight_unit = WeightUnit.kg →
      (matchesRange pc wkg = true ↔
        (pc.weight_min ≤ wkg ∧ wkg ≤ pc.weight_max))) := by
  have hpos : (0:ℚ) < KG_TO_LBS := by norm_num [KG_TO_LBS]
  refine ⟨fun hu => ?_, fun hu => ?_, fun hu => ?_⟩ <;>
    simp only [matchesRange, hu, decide_eq_true_eq]
  rw [div_le_iff₀ hpos, le_div_iff₀ hpos]

/-- C3 amended witness: the [60, 90] lbs profile accepts 30 kg. -/
theorem c3_matcher_amended_witness :
    lbsProfile6090.weight_unit = WeightUnit.lbs ∧ matchesRange lbsProfile6090 30 = true :=
  ⟨rfl, ((c3_matcher_amended lbsProfile6090 30).1 rfl).mpr
    (by norm_num [lbsProfile6090, KG_TO_LBS])⟩

/-- C4: the matcher's containment test with `weight_min = 60`,
`weight_max = 90`, unit lbs accepts a 30 kg measurement (66.1386 lbs is in
[60, 90]) and rejects a 20 kg measurement (44.0924 lbs is not). -/
theorem c4_example_match :
    matchesRange lbsProfile6090 30 = true ∧ matchesRange lbsProfile6090 20 = false := by
  constructor <;>
    · simp only [matchesRange, lbsProfile6090, KG_TO_LBS]
      norm_num

/-- C5: for every valid input, the reported water percentage equals the
clamped-and-rounded chain applied to the already clamped-and-rounded fat
percentage: `round1 (clamp 35 75 ((100 - f) * 0.7126))` with
`f = round1 (clamp 3 60 (((w - lbm) / w) * 100))`, i.e. water consumes the
clamped fat value, not the raw one. -/
theorem c5_water_chain (w z : ℚ) (p : UserProfile) (_hw : 0 < w) (_hz : 0 < z)
    (_hh : 0 < p.height) :
    (calculateAll w z p).water_percentage =
      round1 (clampQ 35.0 75.0
        ((100 - round1 (clampQ 3.0 60.0 (((w - getLeanBodyMass w z p) / w) * 100)))
          * 0.7126)) := rfl

/-- C5 witness: the chain at a concrete valid input. -/
theorem c5_water_chain_witness :
    (0:ℚ) < 75 ∧ (0:ℚ) < 500 ∧
      (0:ℚ) < ({ age := 30, height := 175, sex := Sex.male } : UserProfile).height ∧
      (calculateAll 75 500 { age := 30, height := 175, sex := Sex.male }).water_percentage =
        round1 (clampQ 35.0 75.0
          ((100 - round1 (clampQ 3.0 60.0 (((75 - getLeanBodyMass 75 500
              { age := 30, height := 175, sex := Sex.male }) / 75) * 100)))
            * 0.7126)) :=
  ⟨by norm_num, by norm_num, by norm_num [UserProfile.height],
    c5_water_chain 75 500 { age := 30, height := 175, sex := Sex.male }
      (by norm_num) (by norm_num) (by norm_num [UserProfile.height])⟩

theorem handleExtendedUpdate_early {V : Type} (extract : BodyCompositionResult → Option V)
    (client : ClientState) (pc : ProfileConfig) (est : EntityState V)
    (hg : client.impedance_final = none ∨ client.state = none ∨
      (∃ st, client.state = some st ∧ st.final_weight_kg = none) ∨
      (∃ st wv, client.state = some st ∧ st.final_weight_kg = some wv ∧
        matchesRange pc wv = false)) :
    handleExtendedUpdate extract client pc est = (est, none) := by
  obtain ⟨imp, impf, hre, stt⟩ := client
  rcases hg with h | h | ⟨st, hst, hfw⟩ | ⟨st, wv, hst, hfw, hm⟩
  · simp only at h
    subst h
    cases stt <;> rfl
  · simp only at h
    subst h
    cases impf <;> rfl
  · simp only at hst
    subst hst
    obtain ⟨wk, fw, hrr⟩ := st
    simp only at hfw
    subst hfw
    cases impf <;> rfl
  · simp only at hst
    subst hst
    obtain ⟨wk, fw, hrr⟩ := st
    simp only at hfw
    subst hfw
    cases impf with
    | none => rfl
    | some z0 => simp [handleExtendedUpdate, hm]

theorem matchesRange_false_of_inverted (pc : ProfileConfig)
    (hinv : pc.weight_max < pc.weight_min) (wv : ℚ) :
    matchesRange pc wv = false := by
  unfold matchesRange
  cases hu : pc.weight_unit <;>
    · simp only [hu, decide_eq_false_iff_not]
      rintro ⟨h1, h2⟩
      linarith

/-- C6: whenever the cached final impedance is absent, or the cached client
state or its final weight is absent, or the final weight converted to the
profile's unit falls outside the profile's range, one invocation of
`_handle_extended_update` leaves the entity state unchanged and does not
invoke the calculator (and, being a total function here, raises nothing). -/
theorem c6_frame {V : Type} (extract : BodyCompositionResult → Option V)
    (client : ClientState) (pc : ProfileConfig) (est : EntityState V)
    (hg : client.impedance_final = none ∨ client.state = none ∨
      (∃ st, client.state = some st ∧ st.final_weight_kg = none) ∨
      (∃ st wv, client.state = some st ∧ st.final_weight_kg = some wv ∧
        matchesRange pc wv = false)) :
    handleExtendedUpdate extract client pc est = (est, none) :=
  handleExtendedUpdate_early extract client pc est hg

/-- C6 witness: the initial client state has no final impedance, so the
update is a no-op on a concrete entity state. -/
theorem c6_frame_witness :
    initClientState.impedance_final = none ∧
      handleExtendedUpdate (fun r => some r.bmi) initClientState lbsProfile6090
          { native_value := none, last_result := none } =
        ({ native_value := none, last_result := none }, none) :=
  ⟨rfl, c6_frame (fun r => some r.bmi) initClientState lbsProfile6090
    { native_value := none, last_result := none } (Or.inl rfl)⟩

/-- C10: the matcher does not require `weight_min <= weight_max`: for every
profile whose range is inverted (`weight_min > weight_max`), the
containment test fails for every measurement, so `_handle_extended_update`
never produces a result for that profile and never touches the entity
state — an inverted range silently matches nothing. -/
theorem c10_inverted_range {V : Type} (extract : BodyCompositionResult → Option V)
    (client : ClientState) (pc : ProfileConfig) (est : EntityState V)
    (hinv : pc.weight_max < pc.weight_min) :
    (∀ wv, matchesRange pc wv = false) ∧
      handleExtendedUpdate extract client pc est = (est, none) := by
  refine ⟨matchesRange_false_of_inverted pc hinv, ?_⟩
  apply handleExtendedUpdate_early
  cases himp : client.impedance_final with
  | none => exact Or.inl rfl
  | some z0 =>
    cases hst : client.state with
    | none => exact Or.inr (Or.inl rfl)
    | some st =>
      cases hfw : st.final_weight_kg with
      | none => exact Or.inr (Or.inr (Or.inl ⟨st, rfl, hfw⟩))
      | some wv =>
        exact Or.inr (Or.inr (Or.inr
          ⟨st, wv, rfl, hfw, matchesRange_false_of_inverted pc hinv wv⟩))

/-- Test profile with an inverted range [90, 60] in kilograms. -/
def invertedProfile : ProfileConfig :=
  { profile_id := "p2", name := "P2"
    profile := { age := 40, height := 160, sex := Sex.female }
    weight_min := 90, weight_max := 60, weight_unit := WeightUnit.kg }

/-- C10 witness: a concrete inverted-range profile matches nothing. -/
theorem c10_inverted_range_witness :
    invertedProfile.weight_max < invertedProfile.weight_min ∧
      matchesRange invertedProfile 70 = false ∧
      handleExtendedUpdate (fun r => some r.bmi) initClientState invertedProfile
          { native_value := none, last_result := none } =
        ({ native_value := none, last_result := none }, none) :=
  have h := c10_inverted_range (fun r => some r.bmi) initClientState invertedProfile
    { native_value := none, last_result := none }
    (by norm_num [invertedProfile])
  ⟨by norm_num [invertedProfile], h.1 70, h.2⟩

theorem stepHRT9150_impf (d : List ℕ) (s : ClientState) :
    (stepHRT9150 d s).impedance_final = s.impedance_final := by
  unfold stepHRT9150
  split <;> rfl

theorem stepWeightT9150_impf (d : List ℕ) (s : ClientState) :
    (stepWeightT9150 d s).impedance_final = s.impedance_final := rfl

theorem stepImpT9150_impf (d : List ℕ) (s : ClientState) :
    (stepImpT9150 d s).impedance_final = s.impedance_final ∨
      ∃ r : ℕ, 0 < r ∧ (stepImpT9150 d s).impedance_final = some ((r : ℚ) / 10) := by
  unfold stepImpT9150
  split_ifs with hlen hraw hfin
  · exact Or.inr ⟨t9150Raw d, hraw, rfl⟩
  · exact Or.inl rfl
  · exact Or.inl rfl
  · exact Or.inl rfl

theorem stepT9148_impf (d : List ℕ) (s : ClientState) :
    (stepT9148 d s).impedance_final = s.impedance_final ∨
      ∃ r : ℕ, 0 < r ∧ (stepT9148 d s).impedance_final = some (r : ℚ) := by
  unfold stepT9148 stepStateT9148 stepImpT9148
  split_ifs with hg hraw hfin hfin2
  · exact Or.inr ⟨t9148Raw d, hraw, rfl⟩
  · exact Or.inl rfl
  · exact Or.inl rfl
  · exact Or.inl rfl
  · exact Or.inl rfl

/-- Invariant: any cached final impedance is strictly positive. -/
def ImpFinalPos (s : ClientState) : Prop :=
  ∀ v, s.impedance_final = some v → 0 < v

theorem reachable_impFinalPos {s : ClientState} (h : Reachable s) : ImpFinalPos s := by
  induction h with
  | init =>
      intro v hv
      simp [initClientState] at hv
  | t9150 s d hlen _ ih =>
      intro v hv
      unfold stepT9150BodyComp at hv
      rw [stepWeightT9150_impf] at hv
      rcases stepImpT9150_impf d (stepHRT9150 d s) with he | ⟨r, hr, he⟩
      · rw [he, stepHRT9150_impf] at hv
        exact ih v hv
      · rw [he] at hv
        obtain rfl : (r : ℚ) / 10 = v := Option.some_injective _ hv
        positivity
  | t9148 s d _ ih =>
      intro v hv
      rcases stepT9148_impf d s with he | ⟨r, hr, he⟩
      · rw [he] at hv
        exact ih v hv
      · rw [he] at hv
        obtain rfl : (r : ℚ) = v := Option.some_injective _ hv
        exact_mod_cast hr
  | stateOnly s st _ ih =>
      intro v hv
      exact ih v hv

theorem handleExtendedUpdate_call {V : Type} (extract : BodyCompositionResult → Option V)
    (client : ClientState) (pc : ProfileConfig) (est : EntityState V)
    (wv zv : ℚ) (pr : UserProfile)
    (h : (handleExtendedUpdate extract client pc est).2 = some (wv, zv, pr)) :
    client.impedance_final = some zv := by
  obtain ⟨imp, impf, hre, stt⟩ := client
  cases impf with
  | none => cases stt <;> simp [handleExtendedUpdate] at h
  | some z0 =>
    cases stt with
    | none => simp [handleExtendedUpdate] at h
    | some st =>
      obtain ⟨wk, fw, hrr⟩ := st
      cases fw with
      | none => simp [handleExtendedUpdate] at h
      | some w0 =>
        by_cases hm : matchesRange pc w0
        · cases hex : extract (calculateAll w0 z0 pc.profile) <;>
            · simp [handleExtendedUpdate, hm, hex] at h
              simp [h.2.1]
        · simp [handleExtendedUpdate, hm] at h

/-- C9: in every reachable state of the extended client, the cached final
impedance is either absent or strictly positive (both handlers store it
only when the raw impedance is positive), and any calculator invocation
made by `_handle_extended_update` from a reachable state passes a strictly
positive impedance — the division by impedance in `get_lean_body_mass` is
never a division by zero. -/
theorem c9_impedance_safety (s : ClientState) (hs : Reachable s) :
    (∀ v, s.impedance_final = some v → 0 < v) ∧
      (∀ (V : Type) (extract : BodyCompositionResult → Option V)
          (pc : ProfileConfig) (est : EntityState V) (wv zv : ℚ) (pr : UserProfile),
        (handleExtendedUpdate extract s pc est).2 = some (wv, zv, pr) → 0 < zv) := by
  have hinv := reachable_impFinalPos hs
  refine ⟨hinv, ?_⟩
  intro V extract pc est wv zv pr hcall
  exact hinv zv (handleExtendedUpdate_call extract s pc est wv zv pr hcall)

/-- Concrete T9150 body-comp advertisement packet: status byte `0xA5`
(final), impedance bytes 250 and 0 (25.0 Ω). -/
def t9150TestPacket : List ℕ :=
  [0, 0, 0, 0, 0, 0, 0, 0, 0, 0, 0xA5, 0, 0, 0, 0, 0, 0, 250, 0]

/-- C9 witness: after handling the concrete packet from the initial state,
the cached final impedance is 25 Ω and the theorem yields its positivity. -/
theorem c9_impedance_safety_witness :
    (stepT9150BodyComp t9150TestPacket initClientState).impedance_final = some 25 ∧
      (0:ℚ) < 25 := by
  have hval : (stepT9150BodyComp t9150TestPacket initClientState).impedance_final
      = some 25 := by
    simp [stepT9150BodyComp, stepWeightT9150, stepImpT9150, stepHRT9150, initClientState,
      t9150TestPacket, t9150Raw, t9150Final]
    norm_num
  refine ⟨hval, ?_⟩
  exact (c9_impedance_safety _
    (Reachable.t9150 initClientState t9150TestPacket (by decide) Reachable.init)).1
    25 hval

/-- C7: the claim as frozen is false: starting from pounds, the round trip
`round(round(x * (1/2.20462), 1) * 2.20462, 1)` can move the value by more
than 0.1.  At `x = 0.3306` (inside the configurable range [0, 300]) the
trip gives 0.2, an error of 0.1306. -/
theorem c7_roundtrip_counterexample :
    (0:ℚ) ≤ 3306 / 10000 ∧ (3306 / 10000 : ℚ) ≤ 300 ∧
      1 / 10 < |convertWeight KG_TO_LBS
        (convertWeight (1 / KG_TO_LBS) (3306 / 10000)) - 3306 / 10000| := by
  refine ⟨by norm_num, by norm_num, ?_⟩
  norm_num [convertWeight, KG_TO_LBS, round1, round_eq, abs]

/-- C7 (amended): the kg-to-lbs-and-back round trip stays within 0.1 of
the original value; the lbs-to-kg-and-back round trip stays within
`(1 + 2.20462) / 20 = 0.1602155` of it (and can exceed 0.1, as the
counterexample shows). -/
theorem c7_roundtrip_amended (x : ℚ) (_h0 : 0 ≤ x) (_h300 : x ≤ 300) :
    |convertWeight (1 / KG_TO_LBS) (convertWeight KG_TO_LBS x) - x| ≤ 1 / 10 ∧
      |convertWeight KG_TO_LBS (convertWeight (1 / KG_TO_LBS) x) - x|
        ≤ (1 + KG_TO_LBS) / 20 := by
  unfold convertWeight
  constructor
  · have h1 := abs_le.mp (abs_round1_sub (x * KG_TO_LBS))
    have h2 := abs_le.mp
      (abs_round1_sub (round1 (x * KG_TO_LBS) * (1 / KG_TO_LBS)))
    rw [abs_le]
    simp only [KG_TO_LBS] at h1 h2 ⊢
    norm_num at h1 h2 ⊢
    constructor <;> linarith
  · have h1 := abs_le.mp (abs_round1_sub (x * (1 / KG_TO_LBS)))
    have h2 := abs_le.mp
      (abs_round1_sub (round1 (x * (1 / KG_TO_LBS)) * KG_TO_LBS))
    rw [abs_le]
    simp only [KG_TO_LBS] at h1 h2 ⊢
    norm_num at h1 h2 ⊢
    constructor <;> linarith

/-- C7 amended witness: the bounds at the concrete value 70. -/
theorem c7_roundtrip_amended_witness :
    (0:ℚ) ≤ 70 ∧ (70:ℚ) ≤ 300 ∧
      (|convertWeight (1 / KG_TO_LBS) (convertWeight KG_TO_LBS 70) - 70| ≤ 1 / 10 ∧
        |convertWeight KG_TO_LBS (convertWeight (1 / KG_TO_LBS) 70) - 70|
          ≤ (1 + KG_TO_LBS) / 20) :=
  ⟨by norm_num, by norm_num,
    c7_roundtrip_amended 70 (by norm_num) (by norm_num)⟩

theorem muscleLevel_congr (sex : Sex) {w1 m1 w2 m2 : ℚ} (hw1 : 0 < w1)
    (hw2 : 0 < w2) (h : m1 / w1 = m2 / w2) :
    muscleLevel sex w1 m1 = muscleLevel sex w2 m2 := by
  have key : ∀ c : ℚ, (m1 < w1 * c ↔ m2 < w2 * c) := by
    intro c
    constructor
    · intro hlt
      have hr : m1 / w1 < c := (div_lt_iff₀ hw1).mpr (by linarith)
      rw [h] at hr
      have := (div_lt_iff₀ hw2).mp hr
      linarith
    · intro hlt
      have hr : m2 / w2 < c := (div_lt_iff₀ hw2).mpr (by linarith)
      rw [← h] at hr
      have := (div_lt_iff₀ hw1).mp hr
      linarith
  cases sex <;> simp only [muscleLevel, key]

theorem fatLevel_le_two (sex : Sex) (fat : ℚ) : fatLevel sex fat ≤ 2 := by
  cases sex <;> · simp only [fatLevel]; split_ifs <;> norm_num

theorem muscleLevel_le_two (sex : Sex) (w m : ℚ) : muscleLevel sex w m ≤ 2 := by
  cases sex <;> · simp only [muscleLevel]; split_ifs <;> norm_num

theorem bodyTypes_getD_mem {i : ℕ} (h : i < 9) : BODY_TYPES.getD i "" ∈ BODY_TYPES := by
  interval_cases i <;> simp [BODY_TYPES, List.getD]

/-- C8: for a fixed sex, the body type is a deterministic function solely
of the clamped fat percentage and of muscle mass as a fraction of weight:
two inputs agreeing on those two derived quantities (and on sex) yield the
same body type, which is always one of the nine entries of `BODY_TYPES`
selected by `fat_level * 3 + muscle_level`. -/
theorem c8_bodytype_det (w1 z1 : ℚ) (p1 : UserProfile) (w2 z2 : ℚ)
    (p2 : UserProfile) (hsex : p1.sex = p2.sex) (hw1 : 0 < w1) (hw2 : 0 < w2)
    (hfat : getFatPercentage w1 z1 p1 = getFatPercentage w2 z2 p2)
    (hmus : getMuscleMass w1 z1 p1 / w1 = getMuscleMass w2 z2 p2 / w2) :
    getBodyType w1 z1 p1 = getBodyType w2 z2 p2 ∧
      getBodyType w1 z1 p1 =
        BODY_TYPES.getD (fatLevel p1.sex (getFatPercentage w1 z1 p1) * 3 +
          muscleLevel p1.sex w1 (getMuscleMass w1 z1 p1)) "" ∧
      getBodyType w1 z1 p1 ∈ BODY_TYPES := by
  have h1 : fatLevel p1.sex (getFatPercentage w1 z1 p1)
      = fatLevel p2.sex (getFatPercentage w2 z2 p2) := by rw [hsex, hfat]
  have h2 : muscleLevel p1.sex w1 (getMuscleMass w1 z1 p1)
      = muscleLevel p2.sex w2 (getMuscleMass w2 z2 p2) := by
    rw [hsex]
    exact muscleLevel_congr p2.sex hw1 hw2 hmus
  refine ⟨?_, rfl, ?_⟩
  · simp only [getBodyType]
    rw [h1, h2]
  · simp only [getBodyType]
    apply bodyTypes_getD_mem
    have ha := fatLevel_le_two p1.sex (getFatPercentage w1 z1 p1)
    have hb := muscleLevel_le_two p1.sex w1 (getMuscleMass w1 z1 p1)
    omega

/-- C8 witness: two inputs with identical derived quantities (the same
input twice) and the membership fact, at a concrete valid input. -/
theorem c8_bodytype_det_witness :
    getBodyType 75 500 { age := 30, height := 175, sex := Sex.male } ∈ BODY_TYPES :=
  (c8_bodytype_det 75 500 { age := 30, height := 175, sex := Sex.male }
    75 500 { age := 30, height := 175, sex := Sex.male }
    rfl (by norm_num) (by norm_num) rfl rfl).2.2
